import Mathlib

/-
Verification of the Cat record-access service (src/src/resource/cat/cat.service.ts)
against its specification.  The service mediates between callers and a storage
collaborator bound to one record shape.  Two methods are real passthroughs to
storage (`create`, `findAll`); three are stubs returning placeholder strings
(`findOne`, `update`, `remove`).
-/

namespace NestCats

/-- A persisted Cat record.  Field shape follows spec section 3 (the schema file
`cat.schema.ts` is referenced by the service but is not among the provided
sources): `name` text, `age` numeric, `breed` text, `tags` an optional ordered
sequence of text values, `owner` an optional reference (by identifier) to a
record in a separate Owner collection, plus the server-assigned `id`. -/
structure Cat where
  id : String
  name : String
  age : Int
  breed : String
  tags : List String
  owner : Option String
  deriving Repr, DecidableEq

/-- The create-input field set: the record shape minus server-assigned fields
(no identifier), per spec section 4.1. -/
structure CreateCatDto where
  name : String
  age : Int
  breed : String
  tags : List String
  owner : Option String
  deriving Repr, DecidableEq

/-- The update-input field set: partial fields, per spec section 4.1
(`update` should apply partial-field updates; the stub ignores it). -/
structure UpdateCatDto where
  name : Option String
  age : Option Int
  breed : Option String
  tags : Option (List String)
  owner : Option (Option String)
  deriving Repr, DecidableEq

/-- An error raised by the storage collaborator (spec section 7: connection
failure, write conflict / constraint violation). -/
inductive StorageError where
  | connectionLoss
  | constraintViolation (msg : String)
  deriving Repr, DecidableEq

/-- Modelled from the spec: the storage collaborator's collection state
(the mongoose model behind the `catModel` handle is an external collaborator,
not part of the provided sources).  `docs` is the persisted ordered sequence,
`nextId` drives server-side identifier generation, and `owners` is the set of
identifiers present in the separate Owner collection (spec section 3). -/
structure Collection where
  docs : List Cat
  nextId : Nat
  owners : List String
  deriving Repr, DecidableEq

/-- Modelled from the spec: the server-generated identifier assigned by the
storage layer at save time; always non-empty. -/
def genId (n : Nat) : String := "oid-" ++ toString n

/-- Modelled from the spec: `insert(record) -> persisted record (with
identifier)` (spec section 6).  Constructs the persisted record from the
caller-supplied fields, assigns a generated identifier, and appends it to the
collection.  No validation of `age` or `owner` is performed (spec section 3). -/
def Collection.insert (c : Collection) (dto : CreateCatDto) : Cat × Collection :=
  let r : Cat :=
    { id := genId c.nextId
      name := dto.name
      age := dto.age
      breed := dto.breed
      tags := dto.tags
      owner := dto.owner }
  (r, { docs := c.docs ++ [r], nextId := c.nextId + 1, owners := c.owners })

/-- Modelled from the spec: one storage round trip for a save.  `fault`
injects the collaborator's possible failure (connection loss, constraint
violation); on failure nothing is persisted and the collaborator's error is
returned as-is. -/
def Model.save (fault : Option StorageError) (c : Collection) (dto : CreateCatDto) :
    Except StorageError (Cat × Collection) :=
  match fault with
  | some e => Except.error e
  | none => Except.ok (c.insert dto)

/-- Modelled from the spec: `listAll() -> sequence of persisted records`
(spec section 6), i.e. the `find().exec()` round trip, with the same fault
injection. -/
def Model.findExec (fault : Option StorageError) (c : Collection) :
    Except StorageError (List Cat) :=
  match fault with
  | some e => Except.error e
  | none => Except.ok c.docs

/-- The service's own state: it holds only the collection-handle reference
received at construction (`private catModel: Model<CatDocument>`), nothing
else.  The handle is modelled by an opaque numeric tag naming which handle
was injected. -/
structure CatService where
  catModel : Nat
  deriving Repr, DecidableEq

/-- `create(createCatDto)`: builds a record from the dto and returns the
result of `createdCat.save()` unchanged — no try/catch, no translation,
no retry (cat.service.ts lines 13-16). -/
def CatService.create (fault : Option StorageError) (c : Collection)
    (createCatDto : CreateCatDto) : Except StorageError (Cat × Collection) :=
  Model.save fault c createCatDto

/-- `findAll()`: returns the result of `this.catModel.find().exec()`
unchanged (cat.service.ts lines 18-20). -/
def CatService.findAll (fault : Option StorageError) (c : Collection) :
    Except StorageError (List Cat) :=
  Model.findExec fault c

/-- `findOne(id)`: stub, returns the template string
`This action returns a #\x7bid\x7d cat` (cat.service.ts lines 22-24). -/
def CatService.findOne (id : Int) : String :=
  "This action returns a #" ++ toString id ++ " cat"

/-- `update(id, updateCatDto)`: stub, returns the template string
`This action updates a #\x7bid\x7d cat`; the dto does not occur in the body
(cat.service.ts lines 26-28). -/
def CatService.update (id : Int) (updateCatDto : UpdateCatDto) : String :=
  "This action updates a #" ++ toString id ++ " cat"

/-- `remove(id)`: stub, returns the template string
`This action removes a #\x7bid\x7d cat` (cat.service.ts lines 30-32). -/
def CatService.remove (id : Int) : String :=
  "This action removes a #" ++ toString id ++ " cat"

/-- One caller-visible operation of the service. -/
inductive Op where
  | create (dto : CreateCatDto)
  | findAll
  | findOne (id : Int)
  | update (id : Int) (dto : UpdateCatDto)
  | remove (id : Int)
  deriving Repr

/-- The value an operation returns to the caller. -/
inductive OutVal where
  | record (r : Cat)
  | records (rs : List Cat)
  | msg (s : String)
  | fail (e : StorageError)
  deriving Repr, DecidableEq

/-- The whole observable state: the service instance plus the storage
collaborator's collection. -/
structure SysState where
  service : CatService
  coll : Collection
  deriving Repr, DecidableEq

/-- Dispatch one operation against the state.  `create` and `findAll` are the
storage round trips of cat.service.ts; the three stubs build their strings
without touching either the service or the collection. -/
def runOp (fault : Option StorageError) (s : SysState) : Op → OutVal × SysState
  | Op.create dto =>
      match CatService.create fault s.coll dto with
      | Except.ok rc => (OutVal.record rc.1, { service := s.service, coll := rc.2 })
      | Except.error e => (OutVal.fail e, s)
  | Op.findAll =>
      match CatService.findAll fault s.coll with
      | Except.ok rs => (OutVal.records rs, s)
      | Except.error e => (OutVal.fail e, s)
  | Op.findOne id => (OutVal.msg (CatService.findOne id), s)
  | Op.update id dto => (OutVal.msg (CatService.update id dto), s)
  | Op.remove id => (OutVal.msg (CatService.remove id), s)

/-- Run a sequence of operations, threading the state. -/
def runOps (fault : Option StorageError) (s : SysState) : List Op → SysState
  | [] => s
  | op :: ops => runOps fault (runOp fault s op).2 ops

/-- Concrete inputs used by witnesses. -/
def emptyColl : Collection := { docs := [], nextId := 0, owners := [] }

def tomDto : CreateCatDto :=
  { name := "Tom", age := 3, breed := "Tabby", tags := [], owner := none }

def tomCat : Cat :=
  { id := "oid-0", name := "Tom", age := 3, breed := "Tabby", tags := [], owner := none }

def tomColl : Collection := { docs := [tomCat], nextId := 1, owners := [] }

def noUpdate : UpdateCatDto :=
  { name := none, age := none, breed := none, tags := none, owner := none }

/-- A generated identifier is never the empty string. -/
theorem genId_ne_empty (n : Nat) : genId n ≠ "" := by
  intro h
  have hlen := congrArg String.length h
  rw [genId, String.length_append] at hlen
  have h4 : ("oid-".length : Nat) = 4 := rfl
  have h0 : ("".length : Nat) = 0 := rfl
  omega

/-- On a healthy storage round trip, `runOp` of a create never changes the
service component; on a faulted one, nothing changes at all. -/
theorem runOp_preserves_service (fault : Option StorageError) (s : SysState) (op : Op) :
    ((runOp fault s op).2).service = s.service := by
  cases op with
  | create dto =>
      simp only [runOp]
      cases h : CatService.create fault s.coll dto with
      | ok rc => simp
      | error e => simp
  | findAll =>
      simp only [runOp]
      cases h : CatService.findAll fault s.coll with
      | ok rs => simp
      | error e => simp
  | findOne id => rfl
  | update id dto => rfl
  | remove id => rfl

/-- Running any list of operations preserves the service component. -/
theorem runOps_preserves_service (fault : Option StorageError) (ops : List Op) :
    ∀ s : SysState, (runOps fault s ops).service = s.service := by
  induction ops with
  | nil => intro s; rfl
  | cons op ops ih =>
      intro s
      calc (runOps fault ((runOp fault s op).2) ops).service
          = ((runOp fault s op).2).service := ih _
        _ = s.service := runOp_preserves_service fault s op

def badDto : CreateCatDto :=
  { name := "X", age := -1, breed := "Unknown", tags := [], owner := some "ghost" }

/-- Claim C1: for every valid input field set, `create` (on a healthy storage
round trip) returns a record whose `name`, `age` and `breed` equal the
corresponding input fields, plus a non-empty server-generated identifier. -/
theorem create_returns_input_fields (c : Collection) (dto : CreateCatDto)
    (r : Cat) (c2 : Collection)
    (h : CatService.create none c dto = Except.ok (r, c2)) :
    r.name = dto.name ∧ r.age = dto.age ∧ r.breed = dto.breed ∧ r.id ≠ "" := by
  simp only [CatService.create, Model.save] at h
  injection h with hpair
  have hr : r = (c.insert dto).1 := by rw [hpair]
  subst hr
  exact ⟨rfl, rfl, rfl, genId_ne_empty c.nextId⟩

/-- Claim C1 witness: the spec's Tom example, evaluated concretely. -/
theorem create_returns_input_fields_witness :
    CatService.create none emptyColl tomDto = Except.ok (tomCat, tomColl) ∧
    (tomCat.name = tomDto.name ∧ tomCat.age = tomDto.age ∧
      tomCat.breed = tomDto.breed ∧ tomCat.id ≠ "") :=
  ⟨rfl, create_returns_input_fields emptyColl tomDto tomCat tomColl rfl⟩

/-- Claim C2: after a successful `create`, a subsequent `findAll` over the
same (read-your-writes) storage returns a sequence containing the created
record. -/
theorem findAll_includes_created (c : Collection) (dto : CreateCatDto)
    (r : Cat) (c2 : Collection)
    (h : CatService.create none c dto = Except.ok (r, c2)) :
    ∃ rs, CatService.findAll none c2 = Except.ok rs ∧ r ∈ rs := by
  simp only [CatService.create, Model.save] at h
  injection h with hpair
  have hr : r = (c.insert dto).1 := by rw [hpair]
  have hc : c2 = (c.insert dto).2 := by rw [hpair]
  subst hr
  subst hc
  refine ⟨(c.insert dto).2.docs, rfl, ?_⟩
  simp [Collection.insert]

/-- Claim C2 witness: the created Tom record occurs in the subsequent
`findAll` result. -/
theorem findAll_includes_created_witness :
    ∃ rs, CatService.findAll none tomColl = Except.ok rs ∧ tomCat ∈ rs :=
  findAll_includes_created emptyColl tomDto tomCat tomColl rfl

/-- Claim C3: `findOne` touches neither the service nor the collection (even
under a storage fault) and returns only the placeholder string; in particular
`findOne 5` is exactly the literal `This action returns a #5 cat`. -/
theorem findOne_stub_contract :
    (∀ (fault : Option StorageError) (s : SysState) (id : Int),
      runOp fault s (Op.findOne id) =
        (OutVal.msg ("This action returns a #" ++ toString id ++ " cat"), s)) ∧
    CatService.findOne 5 = "This action returns a #5 cat" := by
  refine ⟨fun fault s id => rfl, by decide⟩

/-- Claim C4: `create` and `findAll` fail exactly when the storage round trip
fails, and in that case the storage error reaches the caller unchanged; when
storage is healthy both succeed. -/
theorem storage_errors_propagate_unchanged (fault : Option StorageError)
    (c : Collection) (dto : CreateCatDto) :
    (∀ e, fault = some e →
      CatService.create fault c dto = Except.error e ∧
      CatService.findAll fault c = Except.error e) ∧
    (fault = none →
      CatService.create fault c dto = Except.ok (c.insert dto) ∧
      CatService.findAll fault c = Except.ok c.docs) := by
  constructor
  · intro e he
    subst he
    exact ⟨rfl, rfl⟩
  · intro he
    subst he
    exact ⟨rfl, rfl⟩

/-- Claim C4 witness: a connection loss during `create` and during `findAll`
is returned verbatim. -/
theorem storage_errors_propagate_unchanged_witness :
    CatService.create (some StorageError.connectionLoss) emptyColl tomDto =
      Except.error StorageError.connectionLoss ∧
    CatService.findAll (some StorageError.connectionLoss) emptyColl =
      Except.error StorageError.connectionLoss :=
  (storage_errors_propagate_unchanged (some StorageError.connectionLoss) emptyColl
    tomDto).1 StorageError.connectionLoss rfl

/-- Claim C5: `findAll` on an empty collection returns the empty sequence,
not an error. -/
theorem findAll_empty_ok (c : Collection) (h : c.docs = []) :
    CatService.findAll none c = Except.ok [] := by
  simp only [CatService.findAll, Model.findExec, h]

/-- Claim C5 witness: the concrete empty collection. -/
theorem findAll_empty_ok_witness :
    emptyColl.docs = [] ∧ CatService.findAll none emptyColl = Except.ok [] :=
  ⟨rfl, findAll_empty_ok emptyColl rfl⟩

/-- Claim C6: `update` and `remove` return their literal placeholder strings
for every identifier and every update input; concretely at identifier 5. -/
theorem update_remove_stub_contract :
    (∀ (id : Int) (dto : UpdateCatDto),
      CatService.update id dto = "This action updates a #" ++ toString id ++ " cat") ∧
    (∀ id : Int,
      CatService.remove id = "This action removes a #" ++ toString id ++ " cat") ∧
    CatService.update 5 noUpdate = "This action updates a #5 cat" ∧
    CatService.remove 5 = "This action removes a #5 cat" := by
  refine ⟨fun id dto => rfl, fun id => rfl, by decide, by decide⟩

/-- Claim C7: the stub operations never fail — under every storage fault they
return a message, never an error value — and leave the entire system state
(service and collection) unchanged, performing no storage access. -/
theorem stubs_never_fail_and_frame (fault : Option StorageError) (s : SysState)
    (id : Int) (dto : UpdateCatDto) :
    runOp fault s (Op.findOne id) = (OutVal.msg (CatService.findOne id), s) ∧
    runOp fault s (Op.update id dto) = (OutVal.msg (CatService.update id dto), s) ∧
    runOp fault s (Op.remove id) = (OutVal.msg (CatService.remove id), s) :=
  ⟨rfl, rfl, rfl⟩

/-- Claim C8: `create` performs no validation before persisting: a dto with a
negative `age` and an `owner` reference absent from the Owner collection is
still accepted and persisted with those fields intact. -/
theorem create_no_validation (c : Collection) (dto : CreateCatDto) (o : String)
    (hage : dto.age < 0) (howner : dto.owner = some o) (habsent : o ∉ c.owners) :
    ∃ r c2, CatService.create none c dto = Except.ok (r, c2) ∧
      r.age = dto.age ∧ r.owner = dto.owner :=
  ⟨(c.insert dto).1, (c.insert dto).2, rfl, rfl, rfl⟩

/-- Claim C8 witness: a dto with age -1 and a dangling owner reference is
persisted unchanged. -/
theorem create_no_validation_witness :
    badDto.age < 0 ∧ badDto.owner = some "ghost" ∧ "ghost" ∉ emptyColl.owners ∧
    (∃ r c2, CatService.create none emptyColl badDto = Except.ok (r, c2) ∧
      r.age = badDto.age ∧ r.owner = badDto.owner) :=
  ⟨by decide, rfl, by decide,
    create_no_validation emptyColl badDto "ghost" (by decide) rfl (by decide)⟩

/-- Claim C9: the service's only state is the collection handle received at
construction; after any sequence of operations it still equals the handle the
constructor was given. -/
theorem handle_immutable (fault : Option StorageError) (handle : Nat)
    (c : Collection) (ops : List Op) :
    (runOps fault { service := { catModel := handle }, coll := c } ops).service.catModel
      = handle := by
  rw [runOps_preserves_service]

/-- Claim C10: `update` ignores its dto argument entirely: any two update
inputs yield identical results and identical (absent) effects on the state. -/
theorem update_ignores_dto (fault : Option StorageError) (s : SysState) (id : Int)
    (dto1 dto2 : UpdateCatDto) :
    runOp fault s (Op.update id dto1) = runOp fault s (Op.update id dto2) := rfl

end NestCats
